import Mathlib

/-
Verification development for the skeletal-hierarchy debug visualizer
(class SkeletonTool): pose resolution (live overlay vs bind-pose
fallback), debug-geometry emission, and the per-frame orchestrator.

Modelling conventions:
* Scalars are rationals.  The source runs on IEEE doubles; the claims
  under study are about exact algebraic structure (which column is read,
  which branch is taken, what is multiplied by what), so exact rational
  arithmetic is the faithful idealization.
* Math.sqrt, and Math.cos / Math.sin composed with the angle step
  (i / segments) * 2 * pi used by the wire-sphere helper, are not
  rational-valued; they enter the model as opaque function parameters of
  the environment (sqrtFn, cosStep, sinStep).  No claim depends on their
  numeric values beyond sqrt 0 = 0, which concrete instantiations satisfy.
* JS Maps become association lists in iteration (= insertion) order;
  Map.get is the first matching key, Map.has is key membership.
* A sparse array of live bone entity ids becomes List (Option String);
  reading past the end yields none (JS: undefined, which is falsy).
* The debug renderer is an append-only sink, so a frame is modelled as
  the list of emitted primitives, in emission order.  Each emitted line
  carries a tag recording which source call site produced it (axis triad
  helper, wire-sphere helper, or the bone-to-parent connection line);
  the tag is an observation of control flow, not extra runtime data.
-/

namespace SkeletonTool

/-- Component-wise 3-vector of rationals, mirroring the x/y/z object
literals used throughout the source. -/
structure Vec3 where
  x : ℚ
  y : ℚ
  z : ℚ
deriving DecidableEq, Repr

/-- RGB color triple as used by the debug renderer. -/
structure Color where
  r : ℚ
  g : ℚ
  b : ℚ
deriving DecidableEq, Repr

/-- Column-major 4x4 matrix stored as 16 scalars, matching the flat
array indexing worldMat[0] .. worldMat[15] in the source.  Columns:
(m0,m1,m2) = X axis, (m4,m5,m6) = Y axis, (m8,m9,m10) = Z axis,
(m12,m13,m14) = translation. -/
structure Mat4 where
  m0 : ℚ
  m1 : ℚ
  m2 : ℚ
  m3 : ℚ
  m4 : ℚ
  m5 : ℚ
  m6 : ℚ
  m7 : ℚ
  m8 : ℚ
  m9 : ℚ
  m10 : ℚ
  m11 : ℚ
  m12 : ℚ
  m13 : ℚ
  m14 : ℚ
  m15 : ℚ
deriving DecidableEq, Repr

/-- Identity matrix. -/
def idMat : Mat4 := ⟨1,0,0,0, 0,1,0,0, 0,0,1,0, 0,0,0,1⟩

/-- Optional per-component visual color of a bone.  The source accepts
either object fields c.x/c.y/c.z or array entries c[0]/c[1]/c[2]; the
chain c.x ?? c[0] ?? default collapses to one optional rational per
component, with the default applied when both are absent. -/
structure VisColor where
  cx : Option ℚ
  cy : Option ℚ
  cz : Option ℚ
deriving DecidableEq, Repr

/-- Optional visual hints of a bone (bone.visual in the source). -/
structure Visual where
  size : Option ℚ
  color : Option VisColor
deriving DecidableEq, Repr

/-- One bone of a skeleton asset.  parentIndex none models the JS values
undefined and null; bindPose is the 4x4 bind-pose transform. -/
structure Bone where
  parentIndex : Option Int
  bindPose : Mat4
  visual : Option Visual
deriving DecidableEq, Repr

/-- An asset as seen by drawSkeleton: it either carries a skeleton with
a bone array or it does not (the source checks both that asset.skeleton
exists and that skeleton.bones is an array; both failures return with no
output, so they collapse to one Option). -/
structure Asset where
  skeleton : Option (List Bone)
deriving DecidableEq, Repr

/-- Visualization options (SkeletonToolOptions in the source). -/
structure Options where
  enabled : Bool
  drawJoints : Bool
  drawBones : Bool
  drawAxes : Bool
  jointRadius : ℚ
  rootScale : ℚ
  boneColor : Color
  rootColor : Color
  border : ℚ
deriving DecidableEq, Repr

/-- Which call site emitted a line primitive: the drawAxis triad helper,
the drawWireSphere helper, or the bone-to-parent connection drawLine. -/
inductive LineKind where
  | axis
  | sphere
  | bone
deriving DecidableEq, Repr

/-- A primitive received by the debug renderer sink: drawLine(a, b, color)
or drawPoint(pos, color, radius, border). -/
inductive Prim where
  | line (kind : LineKind) (a : Vec3) (b : Vec3) (color : Color)
  | point (pos : Vec3) (color : Color) (radius : ℚ) (border : ℚ)
deriving DecidableEq, Repr

/-- Read-only per-frame world supplied by the external collaborators:
scene graph, asset registry, ECS store, and the two skeleton maps of the
engine, plus the opaque numeric functions (see file header). -/
structure Env where
  getWorldMatrix : String → Option Mat4
  getAsset : String → Option Asset
  skeletonEntityAssetMap : List (String × String)
  skeletonMap : List (String × List (Option String))
  idToIndex : String → Option Nat
  isActive : Nat → Bool
  meshType : Nat → Nat
  meshIntToUuid : Nat → Option String
  debugRenderer : Bool
  sqrtFn : ℚ → ℚ
  cosStep : Nat → ℚ
  sinStep : Nat → ℚ

/-- Map.get on an association list: value of the first matching key. -/
def mapGet {α : Type} (m : List (String × α)) (k : String) : Option α :=
  (m.find? (fun kv => kv.1 == k)).map Prod.snd

/-- Map.has on an association list. -/
def mapHas {α : Type} (m : List (String × α)) (k : String) : Bool :=
  (m.find? (fun kv => kv.1 == k)).isSome

/-- Point transform by worldMat (the local helper transform in
drawSkeleton): full affine application, rotation plus translation. -/
def transformPt (m : Mat4) (x y z : ℚ) : Vec3 :=
  { x := m.m0 * x + m.m4 * y + m.m8 * z + m.m12
    y := m.m1 * x + m.m5 * y + m.m9 * z + m.m13
    z := m.m2 * x + m.m6 * y + m.m10 * z + m.m14 }

/-- Vector rotation by worldMat (the local helper rotate in
drawSkeleton): rotation-scale part only, translation ignored. -/
def rotateVec (m : Mat4) (x y z : ℚ) : Vec3 :=
  { x := m.m0 * x + m.m4 * y + m.m8 * z
    y := m.m1 * x + m.m5 * y + m.m9 * z
    z := m.m2 * x + m.m6 * y + m.m10 * z }

/-- drawAxis: three lines from a shared origin along each scaled axis,
colored pure red, green, blue. -/
def drawAxis (o ax ay az : Vec3) (scale : ℚ) : List Prim :=
  [Prim.line LineKind.axis o
     ⟨o.x + ax.x * scale, o.y + ax.y * scale, o.z + ax.z * scale⟩ ⟨1, 0, 0⟩,
   Prim.line LineKind.axis o
     ⟨o.x + ay.x * scale, o.y + ay.y * scale, o.z + ay.z * scale⟩ ⟨0, 1, 0⟩,
   Prim.line LineKind.axis o
     ⟨o.x + az.x * scale, o.y + az.y * scale, o.z + az.z * scale⟩ ⟨0, 0, 1⟩]

/-- One 12-segment circle of the wire sphere: segment k joins point k to
point k+1, where point 0 is the explicitly constructed start and later
points come from the cos/sin parametrization. -/
def sphereCircle (first : Vec3) (f : Nat → Vec3) (c : Color) : List Prim :=
  (List.range 12).map
    (fun k => Prim.line LineKind.sphere (if k = 0 then first else f k) (f (k + 1)) c)

/-- drawWireSphere: three orthogonal 12-segment circles (XY, YZ, XZ
planes) around the center.  cosStep i and sinStep i stand for
Math.cos and Math.sin at angle (i / 12) * 2 * pi. -/
def drawWireSphere (env : Env) (center : Vec3) (radius : ℚ) (c : Color) : List Prim :=
  sphereCircle ⟨center.x + radius, center.y, center.z⟩
    (fun i => ⟨center.x + env.cosStep i * radius, center.y + env.sinStep i * radius, center.z⟩) c ++
  sphereCircle ⟨center.x, center.y + radius, center.z⟩
    (fun i => ⟨center.x, center.y + env.cosStep i * radius, center.z + env.sinStep i * radius⟩) c ++
  sphereCircle ⟨center.x + radius, center.y, center.z⟩
    (fun i => ⟨center.x + env.cosStep i * radius, center.y, center.z + env.sinStep i * radius⟩) c

/-- Root test of the source: p === -1 || p === undefined || p === null. -/
def isRoot (p : Option Int) : Bool :=
  match p with
  | none => true
  | some q => q == -1

/-- Live bone entity lookup: liveBoneIds && liveBoneIds[i], where a
missing array, a missing entry, or an out-of-range index all yield
nothing. -/
def liveIdAt (live : Option (List (Option String))) (i : Nat) : Option String :=
  match live with
  | none => none
  | some l => l.getD i none

/-- Column normalization of the live path: divide by
Math.sqrt(x*x + y*y + z*z) || 1, i.e. by the computed length unless that
length is zero, in which case divide by 1. -/
def normCol (sq : ℚ → ℚ) (x y z : ℚ) : Vec3 :=
  let l := sq (x * x + y * y + z * z)
  let d := if l = 0 then 1 else l
  ⟨x / d, y / d, z / d⟩

/-- Resolved pose of one bone: world position and the three orientation
axes (the pos / rx / ry / rz locals of the per-bone loop body). -/
structure Pose where
  pos : Vec3
  rx : Vec3
  ry : Vec3
  rz : Vec3
deriving DecidableEq, Repr

/-- Live-path pose: translation row of the live world matrix, and its
three rotation columns each normalized by normCol. -/
def livePose (sq : ℚ → ℚ) (wm : Mat4) : Pose :=
  { pos := ⟨wm.m12, wm.m13, wm.m14⟩
    rx := normCol sq wm.m0 wm.m1 wm.m2
    ry := normCol sq wm.m4 wm.m5 wm.m6
    rz := normCol sq wm.m8 wm.m9 wm.m10 }

/-- Fallback pose: bind-pose translation pushed through the instance
world matrix, and bind-pose rotation columns rotated (not normalized)
by the instance world matrix. -/
def fallbackPose (m : Mat4) (bone : Bone) : Pose :=
  { pos := transformPt m bone.bindPose.m12 bone.bindPose.m13 bone.bindPose.m14
    rx := rotateVec m bone.bindPose.m0 bone.bindPose.m1 bone.bindPose.m2
    ry := rotateVec m bone.bindPose.m4 bone.bindPose.m5 bone.bindPose.m6
    rz := rotateVec m bone.bindPose.m8 bone.bindPose.m9 bone.bindPose.m10 }

/-- Per-bone pose resolution (source lines: the liveBoneIds check, the
getWorldMatrix call on the live id, then the usedLiveEntity fallback). -/
def resolvePose (env : Env) (worldMat : Mat4) (live : Option (List (Option String)))
    (i : Nat) (bone : Bone) : Pose :=
  match liveIdAt live i with
  | some liveBoneId =>
    match env.getWorldMatrix liveBoneId with
    | some liveWm => livePose env.sqrtFn liveWm
    | none => fallbackPose worldMat bone
  | none => fallbackPose worldMat bone

/-- Validity test guarding the bone connection line:
typeof p === number && p >= 0 && p < bones.length. -/
def validParent (p : Option Int) (count : Nat) : Bool :=
  match p with
  | none => false
  | some q => decide (0 ≤ q) && decide (q < (count : Int))

/-- Numeric parent index, meaningful only under validParent. -/
def parentNat (p : Option Int) : Nat :=
  (p.getD 0).toNat

/-- Bind-pose fallback for the parent position of the connection line:
transform the parent bind translation, or keep the zero initializer when
the parent bone or its bind pose is unavailable. -/
def parentFallback (m : Mat4) (bones : List Bone) (p : Nat) : Vec3 :=
  match bones.get? p with
  | some parent => transformPt m parent.bindPose.m12 parent.bindPose.m13 parent.bindPose.m14
  | none => ⟨0, 0, 0⟩

/-- Parent position for the bone connection line: prefer the live parent
entity world-matrix translation, else the bind-pose fallback. -/
def parentPos (env : Env) (m : Mat4) (live : Option (List (Option String)))
    (bones : List Bone) (p : Nat) : Vec3 :=
  match liveIdAt live p with
  | some pLiveId =>
    match env.getWorldMatrix pLiveId with
    | some pWm => ⟨pWm.m12, pWm.m13, pWm.m14⟩
    | none => parentFallback m bones p
  | none => parentFallback m bones p

/-- Joint dot color: bone.visual?.color with per-component fallback to
the default orange (1, 0.5, 0). -/
def pointColor (bone : Bone) : Color :=
  match bone.visual with
  | none => ⟨1, 1/2, 0⟩
  | some v =>
    match v.color with
    | none => ⟨1, 1/2, 0⟩
    | some c => ⟨c.cx.getD 1, c.cy.getD (1/2), c.cz.getD 0⟩

/-- Joint dot size multiplier: bone.visual?.size ?? 1.0. -/
def sizeMult (bone : Bone) : ℚ :=
  match bone.visual with
  | none => 1
  | some v => v.size.getD 1

/-- Emission of one loop iteration of drawSkeleton for bone i: the
root-or-joint block, then the optional non-root axes, then the optional
bone connection line, in source order. -/
def emitBone (opts : Options) (env : Env) (worldMat : Mat4)
    (live : Option (List (Option String))) (bones : List Bone)
    (isStandalone : Bool) (i : Nat) (bone : Bone) : List Prim :=
  let pose := resolvePose env worldMat live i bone
  let root := isRoot bone.parentIndex
  (if root then
     (if isStandalone || opts.drawAxes then
        drawAxis pose.pos pose.rx pose.ry pose.rz (0.35 * opts.rootScale)
      else []) ++
     (if opts.drawJoints then
        drawWireSphere env pose.pos (0.3 * opts.rootScale) opts.rootColor
      else [])
   else
     (if opts.drawJoints then
        [Prim.point pose.pos (pointColor bone) (opts.jointRadius * sizeMult bone) opts.border]
      else [])) ++
  (if opts.drawAxes && !root then
     drawAxis pose.pos pose.rx pose.ry pose.rz 0.3
   else []) ++
  (if opts.drawBones && !root && validParent bone.parentIndex bones.length then
     [Prim.line LineKind.bone
        (parentPos env worldMat live bones (parentNat bone.parentIndex)) pose.pos opts.boneColor]
   else [])

/-- drawSkeleton: bail out when the asset, its skeleton, or the instance
world matrix is missing; otherwise emit the standalone origin triad
(scale 0.6) when isStandalone, then process every bone in index order. -/
def drawSkeleton (opts : Options) (env : Env) (assetId entityId : String)
    (isStandalone : Bool) : List Prim :=
  match env.getAsset assetId with
  | none => []
  | some asset =>
    match asset.skeleton with
    | none => []
    | some bones =>
      match env.getWorldMatrix entityId with
      | none => []
      | some worldMat =>
        let live := mapGet env.skeletonMap entityId
        (if isStandalone then
           drawAxis ⟨worldMat.m12, worldMat.m13, worldMat.m14⟩
             ⟨worldMat.m0, worldMat.m1, worldMat.m2⟩
             ⟨worldMat.m4, worldMat.m5, worldMat.m6⟩
             ⟨worldMat.m8, worldMat.m9, worldMat.m10⟩ 0.6
         else []) ++
        bones.enum.flatMap (fun ib => emitBone opts env worldMat live bones isStandalone ib.1 ib.2)

/-- Second-pass step of update for one skeletonMap entry: skip entities
already handled as standalone, look up the ECS row, require it active,
and resolve the mesh tag to an asset id; at most one skeletal-mesh
drawSkeleton invocation results. -/
def meshStep (env : Env) (kv : String × List (Option String)) : List (String × String × Bool) :=
  if mapHas env.skeletonEntityAssetMap kv.1 then []
  else
    match env.idToIndex kv.1 with
    | none => []
    | some idx =>
      if env.isActive idx then
        match env.meshIntToUuid (env.meshType idx) with
        | some assetId => [(assetId, kv.1, false)]
        | none => []
      else []

/-- Sequence of drawSkeleton invocations performed by update, as
(assetId, entityId, isStandalone) triples in invocation order: nothing
when disabled or when the debug renderer is absent; else all standalone
map entries, then the meshStep results of all skeletonMap entries. -/
def updateInstances (opts : Options) (env : Env) : List (String × String × Bool) :=
  if opts.enabled = false then []
  else if env.debugRenderer = false then []
  else
    env.skeletonEntityAssetMap.map (fun kv => (kv.2, kv.1, true)) ++
    env.skeletonMap.flatMap (meshStep env)

/-- update: concatenated emissions of every drawSkeleton invocation. -/
def update (opts : Options) (env : Env) : List Prim :=
  (updateInstances opts env).flatMap (fun t => drawSkeleton opts env t.1 t.2.1 t.2.2)

/-- One frame of the tool as a state transformer.  The class has exactly
one mutable field, the options record (setActive and setActiveAsset are
no-ops); update reads it and never assigns it, so the state passes
through unchanged alongside the emitted primitives. -/
def runUpdate (s : Options) (env : Env) : Options × List Prim :=
  (s, update s env)

/-- Recognizer for bone-to-parent connection lines. -/
def isBoneLine : Prim → Bool
  | Prim.line LineKind.bone _ _ _ => true
  | _ => false

/-- Recognizer for wire-sphere lines. -/
def isSphereLine : Prim → Bool
  | Prim.line LineKind.sphere _ _ _ => true
  | _ => false

/-- Recognizer for point primitives. -/
def isPointPrim : Prim → Bool
  | Prim.point _ _ _ _ => true
  | _ => false

/-- Number of primitives in a frame satisfying a recognizer. -/
def countPrims (f : Prim → Bool) (l : List Prim) : Nat :=
  (l.filter f).length

/-
Concrete instantiations used to evaluate the development on closed
inputs.  baseEnv is an empty world; individual scenarios override the
fields they need.  The sqrtFn instantiation is the identity, which
agrees with the real square root on every value these scenarios feed it
(only 0 and 1 occur).
-/

/-- Empty environment: no entities, no assets, renderer present. -/
def baseEnv : Env :=
  { getWorldMatrix := fun _ => none
    getAsset := fun _ => none
    skeletonEntityAssetMap := []
    skeletonMap := []
    idToIndex := fun _ => none
    isActive := fun _ => false
    meshType := fun _ => 0
    meshIntToUuid := fun _ => none
    debugRenderer := true
    sqrtFn := fun q => q
    cosStep := fun _ => 1
    sinStep := fun _ => 0 }

/-- The DEFAULT_OPTIONS record of the source. -/
def defaultOptions : Options :=
  { enabled := true
    drawJoints := true
    drawBones := true
    drawAxes := false
    jointRadius := 10
    rootScale := 1.6
    boneColor := ⟨0.5, 0.5, 0.5⟩
    rootColor := ⟨0.2, 1, 0.2⟩
    border := 0.2 }

/-- Options with every gate switched off. -/
def optsAllOff : Options :=
  { defaultOptions with
    enabled := false
    drawJoints := false
    drawBones := false
    drawAxes := false }

/-- Live world matrix with translation (7, 8, 9) and uniform scale 2. -/
def wmC1 : Mat4 := ⟨2,0,0,0, 0,2,0,0, 0,0,2,0, 7,8,9,1⟩

/-- Bone whose bind pose carries a far-away translation (100, 200, 300),
used to exhibit that the live path ignores the bind pose. -/
def boneC1 : Bone :=
  { parentIndex := some 0
    bindPose := ⟨1,0,0,0, 0,1,0,0, 0,0,1,0, 100,200,300,1⟩
    visual := none }

/-- Environment exposing one live bone entity named live0. -/
def envC1 : Env :=
  { baseEnv with getWorldMatrix := fun id => if id = "live0" then some wmC1 else none }

/-- Instance world matrix with uniform scale 2 and translation
(10, 20, 30). -/
def matC2 : Mat4 := ⟨2,0,0,0, 0,2,0,0, 0,0,2,0, 10,20,30,1⟩

/-- Bone with bind translation (1, 2, 3) and a non-unit bind X column
(0, 3, 0), used to exhibit the unnormalized fallback axes. -/
def boneC2 : Bone :=
  { parentIndex := none
    bindPose := ⟨0,3,0,0, 0,0,1,0, 1,0,0,0, 1,2,3,1⟩
    visual := none }

/-- Live world matrix whose X rotation column is the zero vector and
whose other columns are unit axes. -/
def zeroColMat : Mat4 := ⟨0,0,0,0, 0,1,0,0, 0,0,1,0, 0,0,0,1⟩

/-- Environment exposing one live bone entity live0 with a degenerate
(zero) X rotation column. -/
def envC3 : Env :=
  { baseEnv with getWorldMatrix := fun id => if id = "live0" then some zeroColMat else none }

/-- Root bone with identity bind pose and no visual hints. -/
def plainBone : Bone := { parentIndex := none, bindPose := idMat, visual := none }

/-- Bone whose parent index is the negative value -2, which is neither
the root sentinel -1 nor a valid array index. -/
def boneNeg2 : Bone := { parentIndex := some (-2), bindPose := idMat, visual := none }

/-- Asset holding the single bone with parent index -2. -/
def assetC5 : Asset := { skeleton := some [boneNeg2] }

/-- Environment with the one-bone asset skelA instantiated by entity
ent at the identity world transform. -/
def envC5 : Env :=
  { baseEnv with
    getAsset := fun id => if id = "skelA" then some assetC5 else none
    getWorldMatrix := fun id => if id = "ent" then some idMat else none }

/-- Bone whose parent index 5 is out of range for a one-bone skeleton. -/
def boneC6 : Bone := { parentIndex := some 5, bindPose := idMat, visual := none }

/-- Asset holding the single bone with out-of-range parent index 5. -/
def assetC6 : Asset := { skeleton := some [boneC6] }

/-- Environment for the out-of-range-parent scenario. -/
def envC6 : Env :=
  { baseEnv with
    getAsset := fun id => if id = "skelB" then some assetC6 else none
    getWorldMatrix := fun id => if id = "ent" then some idMat else none }

/-- Environment in which entity dup appears both in the standalone map
and in the skeletonMap, and entity meshOnly appears only in the
skeletonMap with an active ECS row resolving to asset skelB. -/
def envC7 : Env :=
  { baseEnv with
    getAsset := fun id =>
      if id = "skelA" then some assetC5 else if id = "skelB" then some assetC6 else none
    getWorldMatrix := fun id => if id = "ent" then some idMat else none
    skeletonEntityAssetMap := [("dup", "skelA")]
    skeletonMap := [("dup", []), ("meshOnly", [])]
    idToIndex := fun id => if id = "meshOnly" then some 0 else none
    isActive := fun _ => true
    meshType := fun _ => 3
    meshIntToUuid := fun tag => if tag = 3 then some "skelB" else none }

/-- Environment with a standalone skeleton entity ent whose asset is
skelA, for the origin-triad scenario. -/
def envC8 : Env :=
  { baseEnv with
    getAsset := fun id => if id = "skelA" then some assetC5 else none
    getWorldMatrix := fun id => if id = "ent" then some wmC1 else none
    skeletonEntityAssetMap := [("ent", "skelA")] }

/-- Environment in which the instance entity inst has no world matrix
while its live bone entity b0 does. -/
def envC10 : Env :=
  { baseEnv with
    getAsset := fun id => if id = "skelA" then some assetC5 else none
    getWorldMatrix := fun id => if id = "b0" then some idMat else none
    skeletonMap := [("inst", [some "b0"])] }

/-
Helper lemmas (shared; not themselves claim theorems).
-/

theorem countPrims_nil (f : Prim → Bool) : countPrims f [] = 0 := rfl

theorem countPrims_append (f : Prim → Bool) (l1 l2 : List Prim) :
    countPrims f (l1 ++ l2) = countPrims f l1 + countPrims f l2 := by
  simp [countPrims, List.filter_append]

theorem countPrims_if_zero (f : Prim → Bool) (b : Prop) [Decidable b]
    (l1 l2 : List Prim) (h1 : countPrims f l1 = 0) (h2 : countPrims f l2 = 0) :
    countPrims f (if b then l1 else l2) = 0 := by
  split
  · exact h1
  · exact h2

theorem countPrims_map_zero {α : Type} (f : Prim → Bool) (g : α → Prim) (l : List α)
    (h : ∀ a, f (g a) = false) : countPrims f (l.map g) = 0 := by
  induction l with
  | nil => rfl
  | cons a t ih =>
    simp only [List.map_cons, countPrims, List.filter_cons, h a] at ih ⊢
    simpa using ih

theorem countPrims_flatMap_zero {α : Type} (f : Prim → Bool) (g : α → List Prim)
    (l : List α) (h : ∀ a ∈ l, countPrims f (g a) = 0) :
    countPrims f (l.flatMap g) = 0 := by
  induction l with
  | nil => rfl
  | cons a t ih =>
    rw [List.flatMap_cons, countPrims_append, h a (List.mem_cons_self a t),
      ih (fun b hb => h b (List.mem_cons_of_mem a hb))]

theorem countBoneLine_drawAxis (o ax ay az : Vec3) (s : ℚ) :
    countPrims isBoneLine (drawAxis o ax ay az s) = 0 := rfl

theorem countPoint_drawAxis (o ax ay az : Vec3) (s : ℚ) :
    countPrims isPointPrim (drawAxis o ax ay az s) = 0 := rfl

theorem countSphere_drawAxis (o ax ay az : Vec3) (s : ℚ) :
    countPrims isSphereLine (drawAxis o ax ay az s) = 0 := rfl

theorem countBoneLine_sphereCircle (first : Vec3) (g : Nat → Vec3) (c : Color) :
    countPrims isBoneLine (sphereCircle first g c) = 0 :=
  countPrims_map_zero _ _ _ (fun _ => rfl)

theorem countPoint_sphereCircle (first : Vec3) (g : Nat → Vec3) (c : Color) :
    countPrims isPointPrim (sphereCircle first g c) = 0 :=
  countPrims_map_zero _ _ _ (fun _ => rfl)

theorem countBoneLine_drawWireSphere (env : Env) (center : Vec3) (radius : ℚ) (c : Color) :
    countPrims isBoneLine (drawWireSphere env center radius c) = 0 := by
  simp [drawWireSphere, countPrims_append, countBoneLine_sphereCircle]

theorem countPoint_drawWireSphere (env : Env) (center : Vec3) (radius : ℚ) (c : Color) :
    countPrims isPointPrim (drawWireSphere env center radius c) = 0 := by
  simp [drawWireSphere, countPrims_append, countPoint_sphereCircle]

theorem countBoneLine_point (p : Vec3) (c : Color) (r b : ℚ) :
    countPrims isBoneLine [Prim.point p c r b] = 0 := rfl

theorem countSphere_point (p : Vec3) (c : Color) (r b : ℚ) :
    countPrims isSphereLine [Prim.point p c r b] = 0 := rfl

theorem countPoint_boneLine (a b : Vec3) (c : Color) :
    countPrims isPointPrim [Prim.line LineKind.bone a b c] = 0 := rfl

theorem countSphere_boneLine (a b : Vec3) (c : Color) :
    countPrims isSphereLine [Prim.line LineKind.bone a b c] = 0 := rfl

theorem countBoneLine_emitBone_aux (opts : Options) (env : Env) (worldMat : Mat4)
    (live : Option (List (Option String))) (bones : List Bone) (isSt : Bool)
    (i : Nat) (bone : Bone)
    (hc : (opts.drawBones && !(isRoot bone.parentIndex)
        && validParent bone.parentIndex bones.length) = false) :
    countPrims isBoneLine (emitBone opts env worldMat live bones isSt i bone) = 0 := by
  simp [emitBone, hc, countPrims_append, apply_ite (countPrims isBoneLine),
    countBoneLine_drawAxis, countBoneLine_drawWireSphere, countBoneLine_point,
    countPrims_nil, ite_self]

theorem countJoints_emitBone (f : Prim → Bool) (opts : Options) (env : Env)
    (worldMat : Mat4) (live : Option (List (Option String))) (bones : List Bone)
    (isSt : Bool) (i : Nat) (bone : Bone)
    (h : opts.drawJoints = false)
    (hAxis : ∀ o ax ay az s, countPrims f (drawAxis o ax ay az s) = 0)
    (hLine : ∀ a b c, countPrims f [Prim.line LineKind.bone a b c] = 0) :
    countPrims f (emitBone opts env worldMat live bones isSt i bone) = 0 := by
  simp [emitBone, h, countPrims_append, apply_ite (countPrims f),
    hAxis, hLine, countPrims_nil, ite_self]

theorem countPrims_drawSkeleton_zero (f : Prim → Bool) (opts : Options) (env : Env)
    (assetId entityId : String) (isSt : Bool)
    (hAxis : ∀ o ax ay az s, countPrims f (drawAxis o ax ay az s) = 0)
    (hBone : ∀ worldMat live bones i bone,
      countPrims f (emitBone opts env worldMat live bones isSt i bone) = 0) :
    countPrims f (drawSkeleton opts env assetId entityId isSt) = 0 := by
  cases hA : env.getAsset assetId with
  | none => simp [drawSkeleton, hA, countPrims_nil]
  | some asset =>
    cases hS : asset.skeleton with
    | none => simp [drawSkeleton, hA, hS, countPrims_nil]
    | some bones =>
      cases hW : env.getWorldMatrix entityId with
      | none => simp [drawSkeleton, hA, hS, hW, countPrims_nil]
      | some worldMat =>
        simp only [drawSkeleton, hA, hS, hW]
        rw [countPrims_append]
        rw [countPrims_flatMap_zero f _ bones.enum
          (fun ib _ => hBone worldMat (mapGet env.skeletonMap entityId) bones ib.1 ib.2)]
        rw [Nat.add_zero]
        exact countPrims_if_zero f _ _ _ (hAxis _ _ _ _ _) rfl

theorem countPrims_update_zero (f : Prim → Bool) (opts : Options) (env : Env)
    (h : ∀ assetId entityId isSt,
      countPrims f (drawSkeleton opts env assetId entityId isSt) = 0) :
    countPrims f (update opts env) = 0 := by
  unfold update
  exact countPrims_flatMap_zero f _ _ (fun t _ => h t.1 t.2.1 t.2.2)

theorem resolvePose_of_live {env : Env} {worldMat : Mat4}
    {live : Option (List (Option String))} {i : Nat} {bone : Bone}
    {liveId : String} {wm : Mat4}
    (h1 : liveIdAt live i = some liveId)
    (h2 : env.getWorldMatrix liveId = some wm) :
    resolvePose env worldMat live i bone = livePose env.sqrtFn wm := by
  simp only [resolvePose, h1, h2]

theorem resolvePose_of_fallback {env : Env} {worldMat : Mat4}
    {live : Option (List (Option String))} {i : Nat} {bone : Bone}
    (h : liveIdAt live i = none ∨
      ∃ liveId, liveIdAt live i = some liveId ∧ env.getWorldMatrix liveId = none) :
    resolvePose env worldMat live i bone = fallbackPose worldMat bone := by
  rcases h with h | ⟨liveId, h1, h2⟩
  · simp only [resolvePose, h]
  · simp only [resolvePose, h1, h2]

/-- C1: for every bone i of a skeleton instance, when the overlay holds
a live bone entity for i and the scene graph returns a world matrix for
that entity, the resolved position equals exactly the translation
components (flat indices 12, 13, 14) of that matrix, for every bone and
hence independently of the bind pose. -/
theorem live_overlay_precedence (env : Env) (worldMat : Mat4)
    (live : List (Option String)) (i : Nat) (bone : Bone)
    (liveId : String) (wm : Mat4)
    (h1 : live.getD i none = some liveId)
    (h2 : env.getWorldMatrix liveId = some wm) :
    (resolvePose env worldMat (some live) i bone).pos = ⟨wm.m12, wm.m13, wm.m14⟩ := by
  have h1A : liveIdAt (some live) i = some liveId := h1
  rw [resolvePose_of_live h1A h2]
  rfl

theorem live_overlay_precedence_witness :
    ([some "live0"].getD 0 none = some "live0"
      ∧ envC1.getWorldMatrix "live0" = some wmC1)
    ∧ (resolvePose envC1 idMat (some [some "live0"]) 0 boneC1).pos = ⟨7, 8, 9⟩ :=
  ⟨⟨rfl, rfl⟩,
    live_overlay_precedence envC1 idMat [some "live0"] 0 boneC1 "live0" wmC1 rfl rfl⟩

/-- C2: for every bone with no live overlay entry, or whose live entity
has no world matrix, the resolved position is the bind-pose translation
pushed through the instance world matrix as a full affine map (so the
identity world matrix yields the raw bind translation), and the resolved
axes are the bind-pose rotation columns rotated by the instance world
matrix with no normalization, preserving any scale in that matrix. -/
theorem bind_pose_fallback (env : Env) (worldMat : Mat4)
    (live : Option (List (Option String))) (i : Nat) (bone : Bone)
    (h : liveIdAt live i = none ∨
      ∃ liveId, liveIdAt live i = some liveId ∧ env.getWorldMatrix liveId = none) :
    (resolvePose env worldMat live i bone).pos
        = transformPt worldMat bone.bindPose.m12 bone.bindPose.m13 bone.bindPose.m14
    ∧ (resolvePose env worldMat live i bone).rx
        = rotateVec worldMat bone.bindPose.m0 bone.bindPose.m1 bone.bindPose.m2
    ∧ (resolvePose env worldMat live i bone).ry
        = rotateVec worldMat bone.bindPose.m4 bone.bindPose.m5 bone.bindPose.m6
    ∧ (resolvePose env worldMat live i bone).rz
        = rotateVec worldMat bone.bindPose.m8 bone.bindPose.m9 bone.bindPose.m10
    ∧ (worldMat = idMat →
        (resolvePose env worldMat live i bone).pos
          = ⟨bone.bindPose.m12, bone.bindPose.m13, bone.bindPose.m14⟩) := by
  rw [resolvePose_of_fallback h]
  refine ⟨rfl, rfl, rfl, rfl, ?_⟩
  intro hid
  subst hid
  simp [fallbackPose, transformPt, idMat]

theorem bind_pose_fallback_witness :
    (resolvePose baseEnv matC2 none 0 boneC2).pos = ⟨12, 24, 36⟩
    ∧ (resolvePose baseEnv matC2 none 0 boneC2).rx = ⟨0, 6, 0⟩
    ∧ (resolvePose baseEnv idMat none 0 boneC2).pos = ⟨1, 2, 3⟩ := by
  have h1 := bind_pose_fallback baseEnv matC2 none 0 boneC2 (Or.inl rfl)
  have h2 := bind_pose_fallback baseEnv idMat none 0 boneC2 (Or.inl rfl)
  refine ⟨?_, ?_, ?_⟩
  · rw [h1.1]; norm_num [transformPt, matC2, boneC2]
  · rw [h1.2.1]; norm_num [rotateVec, matC2, boneC2]
  · rw [h2.2.2.2.2 rfl]; rfl

/-- C9: running update twice with identical inputs yields identical
primitive sequences.  The class carries exactly one mutable field, the
options record, modelled by explicit state passing in runUpdate; update
reads it and never writes it, so the state after a frame equals the
state before it and a second frame reproduces the first exactly. -/
theorem update_idempotent_no_hidden_state (s : Options) (env : Env) :
    (runUpdate s env).1 = s
    ∧ (runUpdate (runUpdate s env).1 env).2 = (runUpdate s env).2
    ∧ (runUpdate (runUpdate s env).1 env).1 = s :=
  ⟨rfl, rfl, rfl⟩

/-- C10: when the scene graph returns no world matrix for the instance
entity itself, drawSkeleton emits nothing at all for that instance, even
if live bone entities with valid world matrices exist; the live path is
never consulted. -/
theorem missing_instance_matrix_skips_all (opts : Options) (env : Env)
    (assetId entityId : String) (isStandalone : Bool)
    (h : env.getWorldMatrix entityId = none) :
    drawSkeleton opts env assetId entityId isStandalone = [] := by
  cases hA : env.getAsset assetId with
  | none => simp only [drawSkeleton, hA]
  | some asset =>
    cases hS : asset.skeleton with
    | none => simp only [drawSkeleton, hA, hS]
    | some bones => simp only [drawSkeleton, hA, hS, h]

theorem missing_instance_matrix_skips_all_witness :
    (envC10.getWorldMatrix "inst" = none
      ∧ envC10.getWorldMatrix "b0" = some idMat
      ∧ mapGet envC10.skeletonMap "inst" = some [some "b0"])
    ∧ drawSkeleton defaultOptions envC10 "skelA" "inst" true = [] :=
  ⟨⟨rfl, rfl, rfl⟩,
    missing_instance_matrix_skips_all defaultOptions envC10 "skelA" "inst" true rfl⟩

/-- C3, counterexample: with a live world matrix whose X rotation column
is the zero vector (so its length is 0), the resolved X axis is the zero
vector, not the identity axis (1, 0, 0) the claim requires.  The source
guards division by substituting 1 for the zero length (the expression
Math.sqrt(..) || 1), so the zero column is divided by 1 and survives as
(0, 0, 0); the initial identity value of rx is overwritten.  The
environment instantiates sqrtFn with the identity function, which agrees
with the real square root on the only lengths occurring here (0 and 1). -/
theorem zero_column_gives_zero_axis_counterexample :
    (liveIdAt (some [some "live0"]) 0 = some "live0"
      ∧ envC3.getWorldMatrix "live0" = some zeroColMat
      ∧ envC3.sqrtFn 0 = 0
      ∧ zeroColMat.m0 = 0 ∧ zeroColMat.m1 = 0 ∧ zeroColMat.m2 = 0)
    ∧ (resolvePose envC3 idMat (some [some "live0"]) 0 plainBone).rx ≠ ⟨1, 0, 0⟩
    ∧ (resolvePose envC3 idMat (some [some "live0"]) 0 plainBone).rx = ⟨0, 0, 0⟩ := by
  have hres : resolvePose envC3 idMat (some [some "live0"]) 0 plainBone
      = livePose envC3.sqrtFn zeroColMat := rfl
  refine ⟨⟨rfl, rfl, rfl, rfl, rfl, rfl⟩, ?_, ?_⟩
  · rw [hres]
    simp only [livePose, normCol, zeroColMat]
    norm_num
  · rw [hres]
    simp only [livePose, normCol, zeroColMat]
    norm_num

/-- C3 as amended: on the live path each orientation axis is the
corresponding rotation column of the live world matrix divided by the
computed column length, with divisor 1 substituted when that length is
0; consequently a rotation column that is the zero vector resolves to
the zero vector for that axis (no NaN or undefined components arise,
since the divisor is never 0), and not to the identity axis. -/
theorem live_axes_normalized_zero_column_amended (env : Env) (worldMat : Mat4)
    (live : Option (List (Option String))) (i : Nat) (bone : Bone)
    (liveId : String) (wm : Mat4)
    (h1 : liveIdAt live i = some liveId)
    (h2 : env.getWorldMatrix liveId = some wm) :
    (resolvePose env worldMat live i bone).rx = normCol env.sqrtFn wm.m0 wm.m1 wm.m2
    ∧ (resolvePose env worldMat live i bone).ry = normCol env.sqrtFn wm.m4 wm.m5 wm.m6
    ∧ (resolvePose env worldMat live i bone).rz = normCol env.sqrtFn wm.m8 wm.m9 wm.m10
    ∧ ((wm.m0 = 0 ∧ wm.m1 = 0 ∧ wm.m2 = 0) →
        (resolvePose env worldMat live i bone).rx = ⟨0, 0, 0⟩)
    ∧ ((wm.m4 = 0 ∧ wm.m5 = 0 ∧ wm.m6 = 0) →
        (resolvePose env worldMat live i bone).ry = ⟨0, 0, 0⟩)
    ∧ ((wm.m8 = 0 ∧ wm.m9 = 0 ∧ wm.m10 = 0) →
        (resolvePose env worldMat live i bone).rz = ⟨0, 0, 0⟩)
    ∧ (∀ x y z : ℚ,
        (if env.sqrtFn (x * x + y * y + z * z) = 0 then (1 : ℚ)
         else env.sqrtFn (x * x + y * y + z * z)) ≠ 0) := by
  rw [resolvePose_of_live h1 h2]
  refine ⟨rfl, rfl, rfl, ?_, ?_, ?_, ?_⟩
  · rintro ⟨ha, hb, hc⟩
    simp [livePose, normCol, ha, hb, hc]
  · rintro ⟨ha, hb, hc⟩
    simp [livePose, normCol, ha, hb, hc]
  · rintro ⟨ha, hb, hc⟩
    simp [livePose, normCol, ha, hb, hc]
  · intro x y z
    split
    · exact one_ne_zero
    · next hne => exact hne

theorem live_axes_normalized_zero_column_amended_witness :
    (resolvePose envC3 idMat (some [some "live0"]) 0 plainBone).rx = ⟨0, 0, 0⟩
    ∧ (resolvePose envC3 idMat (some [some "live0"]) 0 plainBone).ry
        = normCol envC3.sqrtFn zeroColMat.m4 zeroColMat.m5 zeroColMat.m6 :=
  ⟨(live_axes_normalized_zero_column_amended envC3 idMat (some [some "live0"]) 0 plainBone
      "live0" zeroColMat rfl rfl).2.2.2.1 ⟨rfl, rfl, rfl⟩,
    (live_axes_normalized_zero_column_amended envC3 idMat (some [some "live0"]) 0 plainBone
      "live0" zeroColMat rfl rfl).2.1⟩

/-- C4: for every input state, drawBones = false means update emits
zero bone-to-parent line segments, drawJoints = false means update
emits zero point primitives and zero wire-sphere line primitives, and
enabled = false means update emits zero primitives of any kind. -/
theorem option_gates_suppress_primitives (opts : Options) (env : Env) :
    (opts.enabled = false → update opts env = [])
    ∧ (opts.drawBones = false → countPrims isBoneLine (update opts env) = 0)
    ∧ (opts.drawJoints = false →
        countPrims isPointPrim (update opts env) = 0
        ∧ countPrims isSphereLine (update opts env) = 0) := by
  refine ⟨?_, ?_, ?_⟩
  · intro h
    simp [update, updateInstances, h]
  · intro h
    refine countPrims_update_zero _ _ _ (fun a e s =>
      countPrims_drawSkeleton_zero _ _ _ _ _ _ countBoneLine_drawAxis
        (fun w l bs i b => countBoneLine_emitBone_aux _ _ _ _ _ _ _ _ ?_))
    simp [h]
  · intro h
    constructor
    · exact countPrims_update_zero _ _ _ (fun a e s =>
        countPrims_drawSkeleton_zero _ _ _ _ _ _ countPoint_drawAxis
          (fun w l bs i b => countJoints_emitBone _ _ _ _ _ _ _ _ _ h
            countPoint_drawAxis countPoint_boneLine))
    · exact countPrims_update_zero _ _ _ (fun a e s =>
        countPrims_drawSkeleton_zero _ _ _ _ _ _ countSphere_drawAxis
          (fun w l bs i b => countJoints_emitBone _ _ _ _ _ _ _ _ _ h
            countSphere_drawAxis countSphere_boneLine))

theorem option_gates_suppress_primitives_witness :
    (optsAllOff.enabled = false ∧ optsAllOff.drawBones = false
      ∧ optsAllOff.drawJoints = false)
    ∧ update optsAllOff envC7 = []
    ∧ countPrims isBoneLine (update optsAllOff envC7) = 0
    ∧ countPrims isPointPrim (update optsAllOff envC7) = 0
    ∧ countPrims isSphereLine (update optsAllOff envC7) = 0 :=
  ⟨⟨rfl, rfl, rfl⟩,
    (option_gates_suppress_primitives optsAllOff envC7).1 rfl,
    (option_gates_suppress_primitives optsAllOff envC7).2.1 rfl,
    ((option_gates_suppress_primitives optsAllOff envC7).2.2 rfl).1,
    ((option_gates_suppress_primitives optsAllOff envC7).2.2 rfl).2⟩

/-- C5, counterexample: the claim says a bone is classified as root
(eligible for the root marker) exactly when its parent index is absent
or negative, but the source tests p === -1 || p === undefined ||
p === null, so the bone with parent index -2 is not classified as root:
with drawJoints on, drawSkeleton emits a regular joint point for it and
no root wire-sphere lines, although -2 is negative. -/
theorem negative_parent_treated_as_joint_counterexample :
    (boneNeg2.parentIndex = some (-2) ∧ (-2 : Int) < 0
      ∧ envC5.getAsset "skelA" = some assetC5
      ∧ assetC5.skeleton = some [boneNeg2]
      ∧ defaultOptions.drawJoints = true)
    ∧ isRoot boneNeg2.parentIndex = false
    ∧ countPrims isPointPrim (drawSkeleton defaultOptions envC5 "skelA" "ent" true) = 1
    ∧ countPrims isSphereLine (drawSkeleton defaultOptions envC5 "skelA" "ent" true) = 0 := by
  exact ⟨⟨rfl, by decide, rfl, rfl, rfl⟩, rfl, rfl, rfl⟩

/-- C5 as amended: a bone is classified as root exactly when its parent
index is absent (undefined / null) or equal to -1; a bone with any other
negative parent index is treated as a regular joint, not a root, but it
still never draws a parent-connecting line (the line guard requires
p >= 0). -/
theorem root_iff_absent_or_minus_one_amended (bone : Bone) :
    (isRoot bone.parentIndex = true ↔
      (bone.parentIndex = none ∨ bone.parentIndex = some (-1)))
    ∧ (∀ (opts : Options) (env : Env) (worldMat : Mat4)
        (live : Option (List (Option String))) (bones : List Bone)
        (isSt : Bool) (i : Nat) (p : Int),
        bone.parentIndex = some p → p < 0 →
        countPrims isBoneLine (emitBone opts env worldMat live bones isSt i bone) = 0) := by
  constructor
  · cases hp : bone.parentIndex with
    | none => simp [isRoot]
    | some q => simp [isRoot]
  · intro opts env worldMat live bones isSt i p hp hneg
    apply countBoneLine_emitBone_aux
    by_cases hq : p = -1
    · have hr : isRoot bone.parentIndex = true := by
        subst hq
        simp [isRoot, hp]
      simp [hr]
    · have hv : validParent bone.parentIndex bones.length = false := by
        have hnot : ¬ (0 ≤ p) := by omega
        simp [validParent, hp, hnot]
      simp [hv]

theorem root_iff_absent_or_minus_one_amended_witness :
    (isRoot boneNeg2.parentIndex = true ↔
      (boneNeg2.parentIndex = none ∨ boneNeg2.parentIndex = some (-1)))
    ∧ countPrims isBoneLine
        (emitBone defaultOptions baseEnv idMat none [boneNeg2] true 0 boneNeg2) = 0 :=
  ⟨(root_iff_absent_or_minus_one_amended boneNeg2).1,
    (root_iff_absent_or_minus_one_amended boneNeg2).2 defaultOptions baseEnv idMat
      none [boneNeg2] true 0 (-2) rfl (by decide)⟩

/-- C6: a bone whose parent index is present but not a valid index
(negative, or at least the bone count) contributes no bone-to-parent
line; the loop itself is a single bounded pass over the bone list (the
embedding is structurally recursive, so processing always terminates by
construction) and nothing is thrown. -/
theorem out_of_range_parent_skips_line (opts : Options) (env : Env) (worldMat : Mat4)
    (live : Option (List (Option String))) (bones : List Bone) (isSt : Bool)
    (i : Nat) (bone : Bone) (p : Int)
    (hp : bone.parentIndex = some p)
    (hout : p < 0 ∨ (bones.length : Int) ≤ p) :
    countPrims isBoneLine (emitBone opts env worldMat live bones isSt i bone) = 0 := by
  apply countBoneLine_emitBone_aux
  have hv : validParent bone.parentIndex bones.length = false := by
    rcases hout with h | h
    · have hnot : ¬ (0 ≤ p) := by omega
      simp [validParent, hp, hnot]
    · have hnot : ¬ (p < (bones.length : Int)) := by omega
      simp [validParent, hp, hnot]
  simp [hv]

theorem out_of_range_parent_skips_line_witness :
    (boneC6.parentIndex = some 5 ∧ ([boneC6].length : Int) ≤ 5)
    ∧ countPrims isBoneLine
        (emitBone defaultOptions envC6 idMat none [boneC6] true 0 boneC6) = 0 :=
  ⟨⟨rfl, by decide⟩,
    out_of_range_parent_skips_line defaultOptions envC6 idMat none [boneC6] true 0
      boneC6 5 rfl (Or.inr (by decide))⟩

theorem mem_meshStep {env : Env} {kv : String × List (Option String)}
    {t : String × String × Bool} (h : t ∈ meshStep env kv) :
    t.2.2 = false ∧ t.2.1 = kv.1
      ∧ mapHas env.skeletonEntityAssetMap kv.1 = false := by
  unfold meshStep at h
  cases hhas : mapHas env.skeletonEntityAssetMap kv.1 with
  | true => simp [hhas] at h
  | false =>
    rw [hhas] at h
    simp only [Bool.false_eq_true, if_false] at h
    cases hidx : env.idToIndex kv.1 with
    | none => rw [hidx] at h; simp at h
    | some idx =>
      rw [hidx] at h
      simp only at h
      cases hact : env.isActive idx with
      | false => rw [hact] at h; simp at h
      | true =>
        rw [hact] at h
        simp only [if_true] at h
        cases hm : env.meshIntToUuid (env.meshType idx) with
        | none => rw [hm] at h; simp at h
        | some aid =>
          rw [hm] at h
          simp only [List.mem_singleton] at h
          simp [h, hhas]

theorem standalone_part_filter_length (S : List (String × String)) (e : String) :
    ((S.map (fun kv => (kv.2, kv.1, true))).filter (fun t => t.2.1 == e)).length
      = (S.filter (fun kv => kv.1 == e)).length := by
  induction S with
  | nil => rfl
  | cons a t ih =>
    simp only [List.map_cons, List.filter_cons]
    cases hb : (a.1 == e)
    · simpa [hb] using ih
    · simpa [hb] using ih

theorem assoc_filter_key_length {α : Type} (m : List (String × α)) (e : String)
    (hnd : (m.map Prod.fst).Nodup) (hmem : mapHas m e = true) :
    (m.filter (fun kv => kv.1 == e)).length = 1 := by
  induction m with
  | nil => simp [mapHas] at hmem
  | cons a t ih =>
    rw [List.map_cons, List.nodup_cons] at hnd
    cases hb : (a.1 == e)
    · have hmem2 : mapHas t e = true := by
        unfold mapHas at hmem ⊢
        rw [List.find?_cons] at hmem
        simpa [hb] using hmem
      simpa [List.filter_cons, hb] using ih hnd.2 hmem2
    · have hae : a.1 = e := by simpa using hb
      have htail : t.filter (fun kv => kv.1 == e) = [] := by
        rw [List.filter_eq_nil_iff]
        intro kv hkv hbeq
        apply hnd.1
        have h1 : kv.1 = e := by simpa using hbeq
        rw [hae, ← h1]
        exact List.mem_map_of_mem Prod.fst hkv
      simp [List.filter_cons, hb, htail]

/-- C7: an entity identifier present in both the standalone map and the
skeletal-mesh skeletonMap gives rise to exactly one drawSkeleton
invocation per update, and that invocation is the standalone one (the
second pass skips every entity found in the standalone map); moreover
the invocation sequence is the standalone invocations followed by the
skeletal-mesh invocations, so all standalone instances are processed
before any skeletal-mesh instance.  update is by definition the
concatenation of the emissions of this invocation sequence. -/
theorem dedup_standalone_processed_once_first (opts : Options) (env : Env) (e : String)
    (hen : opts.enabled = true) (hdb : env.debugRenderer = true)
    (hnd : (env.skeletonEntityAssetMap.map Prod.fst).Nodup)
    (hstand : mapHas env.skeletonEntityAssetMap e = true)
    (_hmesh : mapHas env.skeletonMap e = true) :
    ((updateInstances opts env).filter (fun t => t.2.1 == e)).length = 1
    ∧ (∀ t ∈ updateInstances opts env, t.2.1 = e → t.2.2 = true)
    ∧ (∃ l1 l2, updateInstances opts env = l1 ++ l2
        ∧ (∀ t ∈ l1, t.2.2 = true) ∧ (∀ t ∈ l2, t.2.2 = false)) := by
  have hui : updateInstances opts env
      = env.skeletonEntityAssetMap.map (fun kv => (kv.2, kv.1, true))
        ++ env.skeletonMap.flatMap (meshStep env) := by
    simp [updateInstances, hen, hdb]
  have hzero : (env.skeletonMap.flatMap (meshStep env)).filter
      (fun t => t.2.1 == e) = [] := by
    rw [List.filter_eq_nil_iff]
    intro t ht hbeq
    obtain ⟨kv, _, htm⟩ := List.mem_flatMap.mp ht
    obtain ⟨_, hteq, hhas⟩ := mem_meshStep htm
    have h1 : t.2.1 = e := by simpa using hbeq
    rw [h1] at hteq
    rw [← hteq] at hhas
    rw [hstand] at hhas
    cases hhas
  refine ⟨?_, ?_, ?_⟩
  · rw [hui, List.filter_append, List.length_append, standalone_part_filter_length,
      assoc_filter_key_length _ _ hnd hstand, hzero]
    rfl
  · rw [hui]
    intro t ht hte
    rcases List.mem_append.mp ht with hmem | hmem
    · obtain ⟨kv, _, hkv⟩ := List.mem_map.mp hmem
      rw [← hkv]
    · obtain ⟨kv, _, htm⟩ := List.mem_flatMap.mp hmem
      obtain ⟨_, hteq, hhas⟩ := mem_meshStep htm
      rw [hte] at hteq
      rw [← hteq] at hhas
      rw [hstand] at hhas
      cases hhas
  · refine ⟨_, _, hui, ?_, ?_⟩
    · intro t ht
      obtain ⟨kv, _, hkv⟩ := List.mem_map.mp ht
      rw [← hkv]
    · intro t ht
      obtain ⟨kv, _, htm⟩ := List.mem_flatMap.mp ht
      exact (mem_meshStep htm).1

theorem dedup_standalone_processed_once_first_witness :
    (mapHas envC7.skeletonEntityAssetMap "dup" = true
      ∧ mapHas envC7.skeletonMap "dup" = true
      ∧ (envC7.skeletonEntityAssetMap.map Prod.fst).Nodup)
    ∧ ((updateInstances defaultOptions envC7).filter (fun t => t.2.1 == "dup")).length = 1
    ∧ (∀ t ∈ updateInstances defaultOptions envC7, t.2.1 = "dup" → t.2.2 = true)
    ∧ (∃ l1 l2, updateInstances defaultOptions envC7 = l1 ++ l2
        ∧ (∀ t ∈ l1, t.2.2 = true) ∧ (∀ t ∈ l2, t.2.2 = false)) :=
  ⟨⟨rfl, rfl, by decide⟩,
    dedup_standalone_processed_once_first defaultOptions envC7 "dup" rfl rfl
      (by decide) rfl rfl⟩

/-- C8: for every standalone skeleton instance (entry of the standalone
map with a resolvable asset, skeleton and world matrix), update emits
the coordinate-frame triad of that instance: three line segments from
the instance world-matrix origin along its matrix columns scaled by 0.6,
colored pure red, green and blue, the first primitives of the instance's
emission; this holds for arbitrary options with enabled = true, so in
particular also when drawAxes = false. -/
theorem standalone_instance_origin_triad (opts : Options) (env : Env)
    (e assetId : String) (asset : Asset) (bones : List Bone) (m : Mat4)
    (hen : opts.enabled = true) (hdb : env.debugRenderer = true)
    (hmem : (e, assetId) ∈ env.skeletonEntityAssetMap)
    (h1 : env.getAsset assetId = some asset)
    (h2 : asset.skeleton = some bones)
    (h3 : env.getWorldMatrix e = some m) :
    ∃ pre rest, update opts env
      = pre ++ Prim.line LineKind.axis ⟨m.m12, m.m13, m.m14⟩
            ⟨m.m12 + m.m0 * 0.6, m.m13 + m.m1 * 0.6, m.m14 + m.m2 * 0.6⟩ ⟨1, 0, 0⟩
        :: Prim.line LineKind.axis ⟨m.m12, m.m13, m.m14⟩
            ⟨m.m12 + m.m4 * 0.6, m.m13 + m.m5 * 0.6, m.m14 + m.m6 * 0.6⟩ ⟨0, 1, 0⟩
        :: Prim.line LineKind.axis ⟨m.m12, m.m13, m.m14⟩
            ⟨m.m12 + m.m8 * 0.6, m.m13 + m.m9 * 0.6, m.m14 + m.m10 * 0.6⟩ ⟨0, 0, 1⟩
        :: rest := by
  have hinst : (assetId, e, true) ∈ updateInstances opts env := by
    simp only [updateInstances, hen, hdb, Bool.true_eq_false, if_false]
    exact List.mem_append_left _ (List.mem_map.mpr ⟨(e, assetId), hmem, rfl⟩)
  obtain ⟨s, t2, hsplit⟩ := List.append_of_mem hinst
  have hdraw : drawSkeleton opts env assetId e true
      = Prim.line LineKind.axis ⟨m.m12, m.m13, m.m14⟩
            ⟨m.m12 + m.m0 * 0.6, m.m13 + m.m1 * 0.6, m.m14 + m.m2 * 0.6⟩ ⟨1, 0, 0⟩
        :: Prim.line LineKind.axis ⟨m.m12, m.m13, m.m14⟩
            ⟨m.m12 + m.m4 * 0.6, m.m13 + m.m5 * 0.6, m.m14 + m.m6 * 0.6⟩ ⟨0, 1, 0⟩
        :: Prim.line LineKind.axis ⟨m.m12, m.m13, m.m14⟩
            ⟨m.m12 + m.m8 * 0.6, m.m13 + m.m9 * 0.6, m.m14 + m.m10 * 0.6⟩ ⟨0, 0, 1⟩
        :: bones.enum.flatMap
            (fun ib => emitBone opts env m (mapGet env.skeletonMap e) bones true ib.1 ib.2) := by
    simp [drawSkeleton, h1, h2, h3, drawAxis]
  refine ⟨(s.flatMap (fun t => drawSkeleton opts env t.1 t.2.1 t.2.2)),
    (bones.enum.flatMap
      (fun ib => emitBone opts env m (mapGet env.skeletonMap e) bones true ib.1 ib.2))
      ++ (t2.flatMap (fun t => drawSkeleton opts env t.1 t.2.1 t.2.2)), ?_⟩
  rw [update, hsplit, List.flatMap_append, List.flatMap_cons]
  simp [hdraw]

theorem standalone_instance_origin_triad_witness :
    (("ent", "skelA") ∈ envC8.skeletonEntityAssetMap
      ∧ defaultOptions.drawAxes = false)
    ∧ ∃ pre rest, update defaultOptions envC8
      = pre ++ Prim.line LineKind.axis ⟨wmC1.m12, wmC1.m13, wmC1.m14⟩
            ⟨wmC1.m12 + wmC1.m0 * 0.6, wmC1.m13 + wmC1.m1 * 0.6,
              wmC1.m14 + wmC1.m2 * 0.6⟩ ⟨1, 0, 0⟩
        :: Prim.line LineKind.axis ⟨wmC1.m12, wmC1.m13, wmC1.m14⟩
            ⟨wmC1.m12 + wmC1.m4 * 0.6, wmC1.m13 + wmC1.m5 * 0.6,
              wmC1.m14 + wmC1.m6 * 0.6⟩ ⟨0, 1, 0⟩
        :: Prim.line LineKind.axis ⟨wmC1.m12, wmC1.m13, wmC1.m14⟩
            ⟨wmC1.m12 + wmC1.m8 * 0.6, wmC1.m13 + wmC1.m9 * 0.6,
              wmC1.m14 + wmC1.m10 * 0.6⟩ ⟨0, 0, 1⟩
        :: rest :=
  ⟨⟨by decide, rfl⟩,
    standalone_instance_origin_triad defaultOptions envC8 "ent" "skelA" assetC5
      [boneNeg2] wmC1 rfl rfl (by decide) rfl rfl rfl⟩

end SkeletonTool
